import Mathlib

/-!
Verification development for the ExportQueryAPI request pipeline
(src/ExportQueryAPI.go). The Go handler is embedded shallowly: pure helpers
become Lean functions; the four external interactions (the authorization
HTTP call, the EMR job submission, the audit-record insert, and the
third-party JWT claim decoding) are supplied as an oracle describing their
outcome for the one invocation under study, and every external call the
handler performs is recorded in an effect trace. Go runtime panics
(an out-of-range index, a failed type assertion) are modelled as the
handler returning `none`: no response envelope is produced.
-/

namespace ExportQueryAPI

/-- Values of decoded credential claims (Go `interface\x7b\x7d` inside
`jwt.MapClaims`): for this program only string-ness matters, because the code
runs the type assertion `claims["jti"].(string)`. -/
inductive ClaimValue where
  | str (s : String)
  | nonString
deriving DecidableEq, Repr

/-- A decoded claim set, the image of `jwt.MapClaims` (a JSON object). -/
abbrev Claims := List (String × ClaimValue)

/-- `SuccessResponse` (src lines 33-38). -/
structure SuccessResponse where
  id : String
  jobId : String
  requestId : String
  jobStatus : String
deriving DecidableEq, Repr

/-- `FailureResponse` (src lines 40-43). -/
structure FailureResponse where
  id : String
  message : String
deriving DecidableEq, Repr

/-- The JSON body the handler marshals into the response: exactly one of the
two envelope shapes. Marshalling is injective on these structures, so the
body is modelled structurally rather than as a serialized string. -/
inductive ResponseBody where
  | success (r : SuccessResponse)
  | failure (r : FailureResponse)
deriving DecidableEq, Repr

/-- The API Gateway response: status code plus (structured) JSON body. -/
structure APIGatewayProxyResponse where
  statusCode : Nat
  body : ResponseBody
deriving DecidableEq, Repr

/-- `SkyflowAuthorizationResponse` (src lines 45-50); Go zero values as
defaults. -/
structure SkyflowAuthorizationResponse where
  requestId : String := ""
  statusCode : Nat := 0
  responseBody : String := ""
  error : String := ""
deriving DecidableEq, Repr

/-- The row `LogJob` inserts into `emr_job_details` (src lines 405-408),
without the `createdat` timestamp (a clock read, irrelevant to the claims). -/
structure AuditRecord where
  id : String
  jobId : String
  jobStatus : String
  requestId : String
  query : String
  destination : String
  crossBucketRegion : String
  jti : String
  clientIp : String
deriving DecidableEq, Repr

/-- The `emrserverless.StartJobRunInput` fields the code fills
(src lines 368-385), flattened. -/
structure StartJobRunInput where
  applicationId : String
  executionRoleArn : String
  entryPoint : String
  entryPointArguments : List String
  sparkSubmitParameters : String
  logUri : String
deriving DecidableEq, Repr

/-- One external call made by the handler, in order of occurrence. -/
inductive Effect where
  | authorizationCall (url : String) (query : String) (authHeader : String)
  | submitJob (params : StartJobRunInput)
  | auditInsert (record : AuditRecord)
deriving DecidableEq, Repr

/-- The environment-derived configuration loaded once in `init`
(src lines 68-107). -/
structure Config where
  region : String
  secrets : String
  vaultUrl : String
  validVaultIds : List String
  applicationId : String
  executionRoleArn : String
  sparkSubmitParameters : String
  entryPoint : String
  logUri : String
deriving DecidableEq, Repr

/-- Outcome of `client.Do` in `SkyflowAuthorization` (src line 340): either a
transport error (Go `err != nil`, carrying the error text) or an HTTP
response with status code, the `x-request-id` header, and the body text. -/
inductive AuthCallResult where
  | transportError (msg : String)
  | response (statusCode : Nat) (xRequestId : String) (body : String)
deriving DecidableEq, Repr

/-- Outcomes of the external interactions for one invocation; the handler
performs each at most once. `parseJWT` stands for the third-party
`jwt.Parser.ParseUnverified` claim decoding, `startJobRun` for
`service.StartJobRun` (error text or job run id), `dbExec` for the audit
insert (`some` error text on failure, `none` on success). -/
structure Oracle where
  parseJWT : String → Except String Claims
  authCall : AuthCallResult
  startJobRun : Except String String
  dbExec : Option String

/-- The API Gateway request, with the JSON body already decoded the way
`json.Unmarshal` leaves it: absent `query` and `destination` keep the Go zero
value "", and the optional `region` field is `none` when absent (src lines
132-134 default it to the configured region before decoding). -/
structure APIGatewayProxyRequest where
  bodyQuery : String := ""
  bodyDestination : String := ""
  bodyRegion : Option String := none
  vaultID : String := ""
  authorizationHeader : String := ""
  xForwardedFor : String := ""
deriving DecidableEq, Repr

/-- Go `strings.Split` with a one-character separator, over character lists:
splits around every occurrence of the separator; the empty list yields a
single empty field, and the result is never empty. -/
def splitChar (sep : Char) : List Char → List (List Char)
  | [] => [[]]
  | c :: cs =>
    match splitChar sep cs with
    | [] => [[]]
    | t :: ts => if c = sep then [] :: t :: ts else (c :: t) :: ts

/-- Go `strings.Split(s, sep)` for a one-character `sep`, on strings. -/
def goSplit (s : String) (sep : Char) : List String :=
  (splitChar sep s.data).map (fun l => String.mk l)

/-- Strips a literal character list from the front of another:
`some rest` exactly when the second list is the literal followed by `rest`. -/
def dropLit : List Char → List Char → Option (List Char)
  | [], s => some s
  | _ :: _, [] => none
  | l :: ls, c :: cs => if l = c then dropLit ls cs else none

/-- The language of the key capture `(.*?([^/]+)/?)` of the source regex,
anchored at the end of the subject: some split `A ++ B ++ C` with `A`
arbitrary, `B` a nonempty run of characters other than the slash, and `C`
empty or a single slash. Equivalently, the list ends in a non-slash
character, or ends in exactly one slash preceded by a non-slash character. -/
def keyMatches (key : List Char) : Bool :=
  match key.reverse with
  | [] => false
  | c :: rest =>
    if c = '/' then
      match rest with
      | [] => false
      | c2 :: _ => c2 != '/'
    else true

/-- `re.Match` for the regex `^s3://([^/]+)/(.*?([^/]+)/?)$` compiled in
`init` (src line 79). Because the bucket group `([^/]+)` may not contain a
slash, the slash it must be followed by is necessarily the first slash after
the literal prefix, so the decomposition below is the unique candidate. -/
def destinationMatches (s : String) : Bool :=
  match dropLit ("s3://".data) s.data with
  | none => false
  | some rest =>
    match rest.dropWhile (fun c => c != '/') with
    | [] => false
    | _ :: key => !(rest.takeWhile (fun c => c != '/')).isEmpty && keyMatches key

/-- `ValidateAuthScheme` (src lines 272-281): the first field of splitting the
Authorization header value on the space character must equal "Bearer". The
split list is never empty, so `headD` is exactly the Go index 0. -/
def validateAuthScheme (token : String) : Bool :=
  let authScheme := (goSplit token ' ').headD ""
  authScheme == "Bearer"

/-- `ExtractJTI` (src lines 283-300). The Go code indexes
`strings.Split(authToken, " ")[1]` without a bounds check and casts
`claims["jti"].(string)` without the comma-ok form; both are runtime panics
when they fail, modelled as `none`. A library decode failure is the `error`
case, returned to the caller; a present string-valued `jti` is `ok`. -/
def extractJTI (parse : String → Except String Claims) (authToken : String) :
    Option (Except String String) :=
  match (goSplit authToken ' ')[1]? with
  | none => none
  | some tokenString =>
    match parse tokenString with
    | .error e => some (.error e)
    | .ok claims =>
      match claims.lookup "jti" with
      | some (ClaimValue.str jti) => some (.ok jti)
      | _ => none

/-- `ValidateVaultId` (src lines 302-311): linear scan of the configured
allow-list for an exact string match. -/
def validateVaultId (validVaultIds : List String) (vaultId : String) : Bool :=
  validVaultIds.any (fun validVaultId => vaultId == validVaultId)

/-- `SkyflowAuthorization` (src lines 313-361), paired with its effect trace.
An empty query short-circuits to a 401 outcome with error text
"Invalid Query" and no network call. Otherwise the POST to
`\x7bvaultUrl\x7d/v1/vaults/\x7bvaultId\x7d/query` is issued once: a transport
error yields a 500 outcome carrying the error text; any HTTP response yields
an outcome with the response status, body, and the `x-request-id` header. -/
def skyflowAuthorization (vaultUrl : String) (callResult : AuthCallResult)
    (token : String) (query : String) (vaultId : String) (_id : String) :
    SkyflowAuthorizationResponse × List Effect :=
  if query.length = 0 then
    ({ statusCode := 401, error := "Invalid Query" }, [])
  else
    let url := vaultUrl ++ "/v1/vaults/" ++ vaultId ++ "/query"
    let call := Effect.authorizationCall url query token
    match callResult with
    | .transportError msg =>
      ({ statusCode := 500, error := msg }, [call])
    | .response status xRequestId body =>
      ({ requestId := xRequestId, statusCode := status, responseBody := body }, [call])

/-- The `StartJobRunInput` built by `TriggerEMRJob` (src lines 363-385): the
entry point arguments are exactly the query, the generated request id, the
configured secret reference and the configured region, in that order. -/
def startJobRunParams (cfg : Config) (query : String) (id : String) : StartJobRunInput :=
  { applicationId := cfg.applicationId
    executionRoleArn := cfg.executionRoleArn
    entryPoint := cfg.entryPoint
    entryPointArguments := [query, id, cfg.secrets, cfg.region]
    sparkSubmitParameters := cfg.sparkSubmitParameters
    logUri := cfg.logUri }

/-- `TriggerEMRJob` (src lines 363-399) with its effect trace: the job run is
started once; on error the error is returned, otherwise the job run id. -/
def triggerEMRJob (cfg : Config) (startResult : Except String String)
    (query : String) (id : String) : Except String String × List Effect :=
  (startResult, [Effect.submitJob (startJobRunParams cfg query id)])

/-- `LogJob` (src lines 401-417) with its effect trace: one insert of the
audit row; the database error (or success) is returned unchanged. -/
def logJob (dbResult : Option String) (id jobId jobStatus requestId query
    destination cross_bucket_region jti clientIp : String) :
    Option String × List Effect :=
  (dbResult,
   [Effect.auditInsert
     { id := id, jobId := jobId, jobStatus := jobStatus, requestId := requestId,
       query := query, destination := destination,
       crossBucketRegion := cross_bucket_region, jti := jti, clientIp := clientIp }])

/-- `HandleRequest` (src lines 113-270) for one invocation: `cfg` is the
`init` configuration, `o` the outcomes of the external interactions, `id` the
freshly generated UUID (src line 114). Returns the response and the trace of
external calls, or `none` when the Go code panics and no envelope is built. -/
def handleRequest (cfg : Config) (o : Oracle) (req : APIGatewayProxyRequest)
    (id : String) : Option (APIGatewayProxyResponse × List Effect) :=
  let clientIpAddress := (goSplit req.xForwardedFor ',').headD ""
  let crossBucketRegion := (req.bodyRegion).getD cfg.region
  let vaultId := req.vaultID
  let token := req.authorizationHeader
  if destinationMatches req.bodyDestination = false then
    some ({ statusCode := 400,
            body := .failure { id := id, message := "Invalid s3 destination path." } }, [])
  else if validateAuthScheme token = false then
    some ({ statusCode := 401,
            body := .failure { id := id, message := "Auth Scheme not supported" } }, [])
  else
    match extractJTI o.parseJWT token with
    | none => none
    | some (.error e) =>
      some ({ statusCode := 403,
              body := .failure { id := id, message := "Failed to extract jti with error: " ++ e } },
            [])
    | some (.ok jti) =>
      if validateVaultId cfg.validVaultIds vaultId = false then
        some ({ statusCode := 403,
                body := .failure { id := id, message := "Invalid Vault ID" } }, [])
      else
        let authPair := skyflowAuthorization cfg.vaultUrl o.authCall token req.bodyQuery vaultId id
        let authResponse := authPair.1
        if authResponse.error ≠ "" then
          some ({ statusCode := authResponse.statusCode,
                  body := .failure { id := id, message := authResponse.error } },
                authPair.2)
        else if authResponse.statusCode ≠ 200 then
          some ({ statusCode := authResponse.statusCode,
                  body := .failure { id := id, message := authResponse.responseBody } },
                authPair.2)
        else
          let emrPair := triggerEMRJob cfg o.startJobRun req.bodyQuery id
          match emrPair.1 with
          | .error e =>
            some ({ statusCode := 500,
                    body := .failure { id := id, message := "Failed to trigger Spark job with error: " ++ e ++ "\n" } },
                  authPair.2 ++ emrPair.2)
          | .ok jobId =>
            let jobStatus := "INITIATED"
            let logPair := logJob o.dbExec id jobId jobStatus authResponse.requestId
              req.bodyQuery req.bodyDestination crossBucketRegion jti clientIpAddress
            match logPair.1 with
            | some e =>
              some ({ statusCode := 500,
                      body := .failure { id := id, message := "Failed to log job with error: " ++ e ++ "\n" } },
                    authPair.2 ++ emrPair.2 ++ logPair.2)
            | none =>
              some ({ statusCode := 200,
                      body := .success { id := id, jobId := jobId,
                                         requestId := authResponse.requestId,
                                         jobStatus := jobStatus } },
                    authPair.2 ++ emrPair.2 ++ logPair.2)

/-- The destination pattern of the specification, read literally: a string of
the shape `s3://bucket/non-empty-key`, where the bucket is one or more
characters other than the slash and the key is any remaining non-empty path.
This definition follows the words of the specification, for comparison with
`destinationMatches`, which is translated from the source regex. -/
def specS3Shape (d : String) : Prop :=
  ∃ bucket key : List Char,
    d.data = ("s3://".data) ++ (bucket ++ '/' :: key) ∧
    bucket ≠ [] ∧ '/' ∉ bucket ∧ key ≠ []

/-- Executable decision procedure for `specS3Shape` (the bucket, being
slash-free, must end at the first slash, so the decomposition is unique);
`specS3Shape_iff` proves the two agree. -/
def specS3ShapeCheck (d : String) : Bool :=
  match dropLit ("s3://".data) d.data with
  | none => false
  | some rest =>
    match rest.dropWhile (fun c => c != '/') with
    | [] => false
    | _ :: key => !(rest.takeWhile (fun c => c != '/')).isEmpty && !key.isEmpty

/-- The first whitespace-delimited token of a string, as the specification
words "the first whitespace-delimited token" read literally: the maximal
leading run of non-whitespace characters. -/
def firstWhitespaceToken (s : String) : String :=
  String.mk (s.data.takeWhile (fun c => !c.isWhitespace))

/-- The first token of splitting on the space character only, which is what
the Go code computes with `strings.Split(token, " ")[0]`. -/
def firstSpaceToken (s : String) : String :=
  (goSplit s ' ').headD ""

/-- The job submissions contained in an effect trace. -/
def submitEffectsOf (effs : List Effect) : List StartJobRunInput :=
  effs.filterMap (fun e =>
    match e with
    | Effect.submitJob p => some p
    | _ => none)

/-- A concrete configuration used by witnesses and counterexamples. -/
def cfgEx : Config :=
  { region := "us-east-1", secrets := "secret-ref", vaultUrl := "https://vault.example",
    validVaultIds := ["vault-1", "vault-2"], applicationId := "app-1",
    executionRoleArn := "role-1", sparkSubmitParameters := "params",
    entryPoint := "s3://code/main.py", logUri := "s3://logs/" }

/-- A concrete JWT decoder: "tok.good" decodes with a string `jti` claim,
"tok.nojti" decodes without any `jti` claim, anything else fails to decode. -/
def parseEx : String → Except String Claims :=
  fun t =>
    if t = "tok.good" then .ok [("jti", ClaimValue.str "tid-1")]
    else if t = "tok.nojti" then .ok [("sub", ClaimValue.str "someone")]
    else .error "token contains an invalid number of segments"

/-- An oracle on which every external interaction succeeds. -/
def oracleOK : Oracle :=
  { parseJWT := parseEx, authCall := .response 200 "abc123" "resultset",
    startJobRun := .ok "job-00042", dbExec := none }

/-- An oracle on which everything succeeds except the audit insert. -/
def oracleAuditFail : Oracle :=
  { parseJWT := parseEx, authCall := .response 200 "abc123" "resultset",
    startJobRun := .ok "job-00042", dbExec := some "insert failed" }

/-- An oracle on which the authorization service rejects with status 403. -/
def oracleDenied : Oracle :=
  { parseJWT := parseEx, authCall := .response 403 "req-7" "permission denied",
    startJobRun := .ok "job-00042", dbExec := none }

/-- A concrete valid request used by witnesses and counterexamples. -/
def reqEx : APIGatewayProxyRequest :=
  { bodyQuery := "SELECT 1", bodyDestination := "s3://bucket/key",
    bodyRegion := none, vaultID := "vault-1",
    authorizationHeader := "Bearer tok.good", xForwardedFor := "10.0.0.9,proxy" }

/-! Helper lemmas. -/

/-- A string has length zero exactly when it is empty. -/
lemma length_eq_zero_iff {s : String} : (s.length = 0) ↔ s = "" := by
  constructor
  · intro h
    cases s with
    | mk data =>
      cases data with
      | nil => rfl
      | cons a l => simp [String.length] at h
  · intro h
    subst h
    rfl

/-- A list whose `isEmpty` negation holds is not the empty list. -/
lemma ne_nil_of_not_isEmpty {xs : List Char} (h : (!xs.isEmpty) = true) : xs ≠ [] := by
  cases xs with
  | nil => simp at h
  | cons a l => simp

/-- Converse of `ne_nil_of_not_isEmpty`. -/
lemma not_isEmpty_of_ne_nil {xs : List Char} (h : xs ≠ []) : (!xs.isEmpty) = true := by
  cases xs with
  | nil => exact absurd rfl h
  | cons a l => simp [List.isEmpty]

/-- `dropLit` is sound: success means the subject starts with the literal. -/
lemma dropLit_sound : ∀ (l s r : List Char), dropLit l s = some r → s = l ++ r := by
  intro l
  induction l with
  | nil =>
    intro s r h
    simpa [dropLit] using h
  | cons a as ih =>
    intro s r h
    cases s with
    | nil => simp [dropLit] at h
    | cons c cs =>
      by_cases hc : a = c
      · subst hc
        simp only [dropLit, if_pos rfl] at h
        simpa using ih cs r h
      · simp [dropLit, hc] at h

/-- `dropLit` is complete on a literal prefix. -/
lemma dropLit_append : ∀ (l r : List Char), dropLit l (l ++ r) = some r := by
  intro l r
  induction l with
  | nil => rfl
  | cons a as ih => simp [dropLit, ih]

/-- `takeWhile` and `dropWhile` on a run that satisfies the predicate followed
by an element that does not. -/
lemma takeWhile_run {p : Char → Bool} :
    ∀ (b : List Char) (c : Char) (k : List Char), (∀ a ∈ b, p a = true) → p c = false →
      (b ++ c :: k).takeWhile p = b ∧ (b ++ c :: k).dropWhile p = c :: k := by
  intro b
  induction b with
  | nil =>
    intro c k _ hc
    exact ⟨by simp [List.takeWhile_cons, hc], by simp [List.dropWhile_cons, hc]⟩
  | cons a as ih =>
    intro c k hb hc
    have ha : p a = true := hb a (by simp)
    have has : ∀ x ∈ as, p x = true := fun x hx => hb x (by simp [hx])
    obtain ⟨h1, h2⟩ := ih c k has hc
    exact ⟨by simp [List.takeWhile_cons, ha, h1], by simp [List.dropWhile_cons, ha, h2]⟩

/-- The head of a non-empty `dropWhile` result falsifies the predicate. -/
lemma dropWhile_cons_false {p : Char → Bool} :
    ∀ (l : List Char) (c : Char) (k : List Char), l.dropWhile p = c :: k → p c = false := by
  intro l
  induction l with
  | nil =>
    intro c k h
    simp [List.dropWhile] at h
  | cons a as ih =>
    intro c k h
    rw [List.dropWhile_cons] at h
    by_cases hp : p a
    · exact ih c k (by simpa [hp] using h)
    · rw [if_neg (by simp [hp])] at h
      cases h
      simpa using hp

/-- A key accepted by `keyMatches` is non-empty. -/
lemma keyMatches_ne_nil {k : List Char} (h : keyMatches k = true) : k ≠ [] := by
  intro he
  rw [he] at h
  exact absurd h (by decide)

/-- The executable check decides the literal reading of the spec pattern. -/
lemma specS3Shape_iff (d : String) : specS3Shape d ↔ specS3ShapeCheck d = true := by
  constructor
  · rintro ⟨bucket, key, hd, hb, hnb, hk⟩
    have hall : ∀ a ∈ bucket, (a != '/') = true := by
      intro a ha
      simp only [bne_iff_ne, ne_eq]
      exact fun e => hnb (e ▸ ha)
    have hslash : (('/' : Char) != '/') = false := by simp
    obtain ⟨ht, hdw⟩ := takeWhile_run bucket '/' key hall hslash
    unfold specS3ShapeCheck
    rw [hd, dropLit_append]
    simp only
    rw [hdw, ht]
    simp only [Bool.and_eq_true]
    exact ⟨not_isEmpty_of_ne_nil hb, not_isEmpty_of_ne_nil hk⟩
  · intro h
    unfold specS3ShapeCheck at h
    rcases hdl : dropLit ("s3://".data) d.data with _ | rest
    · rw [hdl] at h
      exact absurd h (by simp)
    · rw [hdl] at h
      simp only at h
      rcases hdw : rest.dropWhile (fun c => c != '/') with _ | ⟨c, key⟩
      · rw [hdw] at h
        exact absurd h (by simp)
      · rw [hdw] at h
        simp only [Bool.and_eq_true] at h
        obtain ⟨hb, hk⟩ := h
        have hc : ((fun x => x != '/') c) = false := dropWhile_cons_false rest c key hdw
        have hc2 : c = '/' := by simpa [bne_iff_ne] using hc
        refine ⟨rest.takeWhile (fun x => x != '/'), key,
                ?_, ne_nil_of_not_isEmpty hb, ?_, ne_nil_of_not_isEmpty hk⟩
        · rw [dropLit_sound _ _ _ hdl]
          congr 1
          conv_lhs => rw [← List.takeWhile_append_dropWhile (p := fun x => x != '/') (l := rest)]
          rw [hdw, hc2]
        · intro hmem
          have h4 := List.mem_takeWhile_imp hmem
          simp at h4

/-- A destination accepted by the source regex also matches the literal
reading of the spec pattern (the code language refines the spec language). -/
lemma destinationMatches_imp_check {d : String} (h : destinationMatches d = true) :
    specS3ShapeCheck d = true := by
  unfold destinationMatches at h
  unfold specS3ShapeCheck
  rcases hdl : dropLit ("s3://".data) d.data with _ | rest
  · rw [hdl] at h
    exact absurd h (by simp)
  · rw [hdl] at h
    simp only at h ⊢
    rcases hdw : rest.dropWhile (fun c => c != '/') with _ | ⟨c, key⟩
    · rw [hdw] at h
      exact absurd h (by simp)
    · rw [hdw] at h
      simp only [Bool.and_eq_true] at h ⊢
      exact ⟨h.1, by simpa using not_isEmpty_of_ne_nil (keyMatches_ne_nil h.2)⟩

/-! Claim theorems. -/

/-- C5: every destination string not of the shape `s3://bucket/non-empty-key`
(the literal reading `specS3Shape` of the spec pattern) is refused by the
destination validator; in particular "s3:///key" and "s3://bucket" are
refused while "s3://bucket/key" passes; and whenever the validator refuses,
the handler returns status 400 with body message "Invalid s3 destination
path." and an empty effect trace, so no later stage runs. -/
theorem C5_destination_validation :
    (∀ d : String, ¬ specS3Shape d → destinationMatches d = false) ∧
    (destinationMatches "s3:///key" = false ∧
     destinationMatches "s3://bucket" = false ∧
     destinationMatches "s3://bucket/key" = true) ∧
    (∀ (cfg : Config) (o : Oracle) (req : APIGatewayProxyRequest) (id : String),
      destinationMatches req.bodyDestination = false →
      handleRequest cfg o req id =
        some ({ statusCode := 400,
                body := .failure { id := id, message := "Invalid s3 destination path." } },
              [])) := by
  refine ⟨?_, ⟨by decide, by decide, by decide⟩, ?_⟩
  · intro d hns
    cases h : destinationMatches d with
    | false => rfl
    | true => exact absurd ((specS3Shape_iff d).mpr (destinationMatches_imp_check h)) hns
  · intro cfg o req id h
    simp [handleRequest, h]

/-- Witness for C5 at concrete inputs: "s3://bucket" does not have the spec
shape, so the first conjunct applies to it, and a request carrying it as the
destination is answered with 400 and no external call. -/
theorem C5_destination_validation_witness :
    destinationMatches "s3://bucket" = false ∧
    handleRequest cfgEx oracleOK { reqEx with bodyDestination := "s3://bucket" } "id-5" =
      some ({ statusCode := 400,
              body := .failure { id := "id-5", message := "Invalid s3 destination path." } },
            []) :=
  ⟨C5_destination_validation.1 "s3://bucket" (by rw [specS3Shape_iff]; decide),
   C5_destination_validation.2.2 cfgEx oracleOK
     { reqEx with bodyDestination := "s3://bucket" } "id-5" (by decide)⟩

/-- C6: a request refused by any client-input validation stage (destination
shape, auth scheme, claim extraction, tenant allow-list) is answered with the
stage 4xx response and an empty effect trace: no authorization call, no job
submission and no audit write happens. In particular an allow-list miss gives
403 with message "Invalid Vault ID". -/
theorem C6_client_errors_no_side_effects :
    ∀ (cfg : Config) (o : Oracle) (req : APIGatewayProxyRequest) (id : String),
      (destinationMatches req.bodyDestination = false →
        handleRequest cfg o req id =
          some ({ statusCode := 400,
                  body := .failure { id := id, message := "Invalid s3 destination path." } },
                [])) ∧
      (destinationMatches req.bodyDestination = true →
        validateAuthScheme req.authorizationHeader = false →
        handleRequest cfg o req id =
          some ({ statusCode := 401,
                  body := .failure { id := id, message := "Auth Scheme not supported" } },
                [])) ∧
      (∀ e : String, destinationMatches req.bodyDestination = true →
        validateAuthScheme req.authorizationHeader = true →
        extractJTI o.parseJWT req.authorizationHeader = some (.error e) →
        handleRequest cfg o req id =
          some ({ statusCode := 403,
                  body := .failure { id := id,
                                     message := "Failed to extract jti with error: " ++ e } },
                [])) ∧
      (∀ jti : String, destinationMatches req.bodyDestination = true →
        validateAuthScheme req.authorizationHeader = true →
        extractJTI o.parseJWT req.authorizationHeader = some (.ok jti) →
        validateVaultId cfg.validVaultIds req.vaultID = false →
        handleRequest cfg o req id =
          some ({ statusCode := 403,
                  body := .failure { id := id, message := "Invalid Vault ID" } },
                [])) := by
  intro cfg o req id
  refine ⟨?_, ?_, ?_, ?_⟩
  · intro h1
    simp [handleRequest, h1]
  · intro h1 h2
    simp [handleRequest, h1, h2]
  · intro e h1 h2 h3
    simp [handleRequest, h1, h2, h3]
  · intro jti h1 h2 h3 h4
    simp [handleRequest, h1, h2, h3, h4]

/-- Witness for C6 at a concrete input: a vault id missing from the
allow-list is answered with 403 "Invalid Vault ID" and no external call. -/
theorem C6_client_errors_no_side_effects_witness :
    handleRequest cfgEx oracleOK { reqEx with vaultID := "vault-9" } "id-6" =
      some ({ statusCode := 403,
              body := .failure { id := "id-6", message := "Invalid Vault ID" } },
            []) :=
  (C6_client_errors_no_side_effects cfgEx oracleOK
    { reqEx with vaultID := "vault-9" } "id-6").2.2.2 "tid-1" (by decide) (by decide) rfl
    (by decide)

/-- C7 counterexample: on "Bearer\tcred" the first whitespace-delimited token
is exactly the configured scheme name "Bearer", yet the validator rejects,
because the code splits on the space character only; so "accepts iff the
first whitespace-delimited token equals the scheme" is false. -/
theorem C7_counterexample :
    firstWhitespaceToken "Bearer\tcred" = "Bearer" ∧
    validateAuthScheme "Bearer\tcred" = false := by
  exact ⟨by decide, by decide⟩

/-- C7 as amended: the validator accepts exactly when the first token of
splitting the header on the space character (U+0020) only equals "Bearer"
(case-sensitive); on rejection the handler returns 401 with message
"Auth Scheme not supported" and an empty effect trace, so the credential is
not forwarded to any later stage. -/
theorem C7_space_delimited_scheme :
    (∀ token : String, validateAuthScheme token = true ↔ firstSpaceToken token = "Bearer") ∧
    (∀ (cfg : Config) (o : Oracle) (req : APIGatewayProxyRequest) (id : String),
      validateAuthScheme req.authorizationHeader = false →
      destinationMatches req.bodyDestination = true →
      handleRequest cfg o req id =
        some ({ statusCode := 401,
                body := .failure { id := id, message := "Auth Scheme not supported" } },
              [])) := by
  constructor
  · intro token
    simp [validateAuthScheme, firstSpaceToken]
  · intro cfg o req id h2 h1
    simp [handleRequest, h1, h2]

/-- Witness for C7 at a concrete input: the scheme "Basic" is rejected with
401 and no external call. -/
theorem C7_space_delimited_scheme_witness :
    handleRequest cfgEx oracleOK { reqEx with authorizationHeader := "Basic abc" } "id-7" =
      some ({ statusCode := 401,
              body := .failure { id := "id-7", message := "Auth Scheme not supported" } },
            []) :=
  C7_space_delimited_scheme.2 cfgEx oracleOK
    { reqEx with authorizationHeader := "Basic abc" } "id-7" (by decide) (by decide)

/-- C8: the tenant allow-list check succeeds exactly when the vault id is
string-equal to a member of the configured list, and on the empty list it
fails for every id. -/
theorem C8_allow_list_membership :
    (∀ (ids : List String) (v : String), validateVaultId ids v = true ↔ v ∈ ids) ∧
    (∀ v : String, validateVaultId [] v = false) := by
  constructor
  · intro ids v
    simp only [validateVaultId, List.any_eq_true, beq_iff_eq]
    constructor
    · rintro ⟨x, hx, rfl⟩
      exact hx
    · intro h
      exact ⟨v, h, rfl⟩
  · intro v
    rfl

/-- C4: a transport failure of the authorization call yields an outcome with
status 500 carrying the (non-empty) transport error text, while an HTTP
response with any non-200 status yields an outcome with exactly the status
of the service and the body of the service; and the handler propagates both
to the caller: the non-200 status verbatim with the service body as the
failure message, and 500 with the transport error text as the message. -/
theorem C4_authorization_failure_semantics :
    (∀ (vaultUrl msg token query vaultId id : String), query ≠ "" → msg ≠ "" →
      (skyflowAuthorization vaultUrl (.transportError msg) token query vaultId id).1.statusCode
          = 500 ∧
      (skyflowAuthorization vaultUrl (.transportError msg) token query vaultId id).1.error
          = msg ∧
      (skyflowAuthorization vaultUrl (.transportError msg) token query vaultId id).1.error
          ≠ "") ∧
    (∀ (vaultUrl token query vaultId id xr bd : String) (st : Nat), query ≠ "" →
      (skyflowAuthorization vaultUrl (.response st xr bd) token query vaultId id).1.statusCode
          = st ∧
      (skyflowAuthorization vaultUrl (.response st xr bd) token query vaultId id).1.responseBody
          = bd) ∧
    (∀ (cfg : Config) (o : Oracle) (req : APIGatewayProxyRequest) (id jti xr bd : String)
        (st : Nat),
      destinationMatches req.bodyDestination = true →
      validateAuthScheme req.authorizationHeader = true →
      extractJTI o.parseJWT req.authorizationHeader = some (.ok jti) →
      validateVaultId cfg.validVaultIds req.vaultID = true →
      req.bodyQuery ≠ "" →
      o.authCall = .response st xr bd →
      st ≠ 200 →
      handleRequest cfg o req id =
        some ({ statusCode := st, body := .failure { id := id, message := bd } },
              [Effect.authorizationCall (cfg.vaultUrl ++ "/v1/vaults/" ++ req.vaultID ++ "/query")
                req.bodyQuery req.authorizationHeader])) ∧
    (∀ (cfg : Config) (o : Oracle) (req : APIGatewayProxyRequest) (id jti msg : String),
      destinationMatches req.bodyDestination = true →
      validateAuthScheme req.authorizationHeader = true →
      extractJTI o.parseJWT req.authorizationHeader = some (.ok jti) →
      validateVaultId cfg.validVaultIds req.vaultID = true →
      req.bodyQuery ≠ "" →
      o.authCall = .transportError msg →
      msg ≠ "" →
      handleRequest cfg o req id =
        some ({ statusCode := 500, body := .failure { id := id, message := msg } },
              [Effect.authorizationCall (cfg.vaultUrl ++ "/v1/vaults/" ++ req.vaultID ++ "/query")
                req.bodyQuery req.authorizationHeader])) := by
  refine ⟨?_, ?_, ?_, ?_⟩
  · intro vaultUrl msg token query vaultId id hq hm
    simp [skyflowAuthorization, length_eq_zero_iff, hq, hm]
  · intro vaultUrl token query vaultId id xr bd st hq
    simp [skyflowAuthorization, length_eq_zero_iff, hq]
  · intro cfg o req id jti xr bd st h1 h2 h3 h4 h5 h6 h7
    simp [handleRequest, h1, h2, h3, h4, skyflowAuthorization, length_eq_zero_iff, h5, h6, h7]
  · intro cfg o req id jti msg h1 h2 h3 h4 h5 h6 h7
    simp [handleRequest, h1, h2, h3, h4, skyflowAuthorization, length_eq_zero_iff, h5, h6, h7]

/-- Witness for C4 at a concrete input: the authorization service answers 403
with body "permission denied", and the handler returns exactly status 403
with that body text as the failure message, after exactly one external
call. -/
theorem C4_authorization_failure_semantics_witness :
    handleRequest cfgEx oracleDenied reqEx "id-4" =
      some ({ statusCode := 403,
              body := .failure { id := "id-4", message := "permission denied" } },
            [Effect.authorizationCall "https://vault.example/v1/vaults/vault-1/query"
              "SELECT 1" "Bearer tok.good"]) :=
  C4_authorization_failure_semantics.2.2.1 cfgEx oracleDenied reqEx "id-4" "tid-1"
    "req-7" "permission denied" 403 (by decide) (by decide) rfl (by decide) (by decide)
    rfl (by decide)

/-- C1 counterexample: on a request where every validation passes, the
authorization service answers 200, and the job submission succeeds (the
oracle returns the job run id and the submit effect is in the trace), the
handler nevertheless answers 500, not 200, because the audit insert fails;
so "on submission success returns status 200" is false as stated. -/
theorem C1_counterexample :
    oracleAuditFail.startJobRun = Except.ok "job-00042" ∧
    handleRequest cfgEx oracleAuditFail reqEx "id-1" =
      some ({ statusCode := 500,
              body := .failure { id := "id-1",
                                 message := "Failed to log job with error: insert failed\n" } },
            [Effect.authorizationCall "https://vault.example/v1/vaults/vault-1/query"
              "SELECT 1" "Bearer tok.good",
             Effect.submitJob (startJobRunParams cfgEx "SELECT 1" "id-1"),
             Effect.auditInsert
               { id := "id-1", jobId := "job-00042", jobStatus := "INITIATED",
                 requestId := "abc123", query := "SELECT 1",
                 destination := "s3://bucket/key", crossBucketRegion := "us-east-1",
                 jti := "tid-1", clientIp := "10.0.0.9" }]) := by
  exact ⟨rfl, by decide⟩

/-- C1 as amended: when every validation passes, the authorization service
answers 200 with an x-request-id header, the job submission succeeds and the
audit write also succeeds, the handler submits the job with exactly the
query and the generated request id among the entry point arguments and
answers 200 with the generated id, the submitted job id, jobStatus
"INITIATED" and the requestId taken from the x-request-id header. -/
theorem C1_success_response
    (cfg : Config) (o : Oracle) (req : APIGatewayProxyRequest) (id jti xr bd jobId : String)
    (h1 : destinationMatches req.bodyDestination = true)
    (h2 : validateAuthScheme req.authorizationHeader = true)
    (h3 : extractJTI o.parseJWT req.authorizationHeader = some (.ok jti))
    (h4 : validateVaultId cfg.validVaultIds req.vaultID = true)
    (h5 : req.bodyQuery ≠ "")
    (h6 : o.authCall = .response 200 xr bd)
    (h7 : o.startJobRun = .ok jobId)
    (h8 : o.dbExec = none) :
    handleRequest cfg o req id =
      some ({ statusCode := 200,
              body := .success { id := id, jobId := jobId, requestId := xr,
                                 jobStatus := "INITIATED" } },
            [Effect.authorizationCall (cfg.vaultUrl ++ "/v1/vaults/" ++ req.vaultID ++ "/query")
              req.bodyQuery req.authorizationHeader,
             Effect.submitJob (startJobRunParams cfg req.bodyQuery id),
             Effect.auditInsert
               { id := id, jobId := jobId, jobStatus := "INITIATED", requestId := xr,
                 query := req.bodyQuery, destination := req.bodyDestination,
                 crossBucketRegion := req.bodyRegion.getD cfg.region, jti := jti,
                 clientIp := (goSplit req.xForwardedFor ',').headD "" }]) := by
  simp [handleRequest, h1, h2, h3, h4, skyflowAuthorization, length_eq_zero_iff, h5, h6, h7,
        h8, triggerEMRJob, logJob]

/-- Witness for C1 at a concrete input: full happy path, answered 200 with
the submitted job id "job-00042", jobStatus "INITIATED" and the requestId
"abc123" from the x-request-id header. -/
theorem C1_success_response_witness :
    handleRequest cfgEx oracleOK reqEx "id-1" =
      some ({ statusCode := 200,
              body := .success { id := "id-1", jobId := "job-00042", requestId := "abc123",
                                 jobStatus := "INITIATED" } },
            [Effect.authorizationCall "https://vault.example/v1/vaults/vault-1/query"
              "SELECT 1" "Bearer tok.good",
             Effect.submitJob (startJobRunParams cfgEx "SELECT 1" "id-1"),
             Effect.auditInsert
               { id := "id-1", jobId := "job-00042", jobStatus := "INITIATED",
                 requestId := "abc123", query := "SELECT 1",
                 destination := "s3://bucket/key", crossBucketRegion := "us-east-1",
                 jti := "tid-1", clientIp := "10.0.0.9" }]) :=
  C1_success_response cfgEx oracleOK reqEx "id-1" "tid-1" "abc123" "resultset" "job-00042"
    (by decide) (by decide) rfl (by decide) (by decide) rfl rfl rfl

/-- C9: when the pipeline reaches the audit write with a successfully
submitted job and the insert fails, the handler answers 500 with a message
carrying the audit error text, and the effect trace ends at the audit
insert: the submit effect stays in the trace and no compensating call
follows (the embedding has no cancellation effect at all). -/
theorem C9_audit_failure_response
    (cfg : Config) (o : Oracle) (req : APIGatewayProxyRequest) (id jti xr bd jobId e : String)
    (h1 : destinationMatches req.bodyDestination = true)
    (h2 : validateAuthScheme req.authorizationHeader = true)
    (h3 : extractJTI o.parseJWT req.authorizationHeader = some (.ok jti))
    (h4 : validateVaultId cfg.validVaultIds req.vaultID = true)
    (h5 : req.bodyQuery ≠ "")
    (h6 : o.authCall = .response 200 xr bd)
    (h7 : o.startJobRun = .ok jobId)
    (h8 : o.dbExec = some e) :
    handleRequest cfg o req id =
      some ({ statusCode := 500,
              body := .failure { id := id,
                                 message := "Failed to log job with error: " ++ e ++ "\n" } },
            [Effect.authorizationCall (cfg.vaultUrl ++ "/v1/vaults/" ++ req.vaultID ++ "/query")
              req.bodyQuery req.authorizationHeader,
             Effect.submitJob (startJobRunParams cfg req.bodyQuery id),
             Effect.auditInsert
               { id := id, jobId := jobId, jobStatus := "INITIATED", requestId := xr,
                 query := req.bodyQuery, destination := req.bodyDestination,
                 crossBucketRegion := req.bodyRegion.getD cfg.region, jti := jti,
                 clientIp := (goSplit req.xForwardedFor ',').headD "" }]) := by
  simp [handleRequest, h1, h2, h3, h4, skyflowAuthorization, length_eq_zero_iff, h5, h6, h7,
        h8, triggerEMRJob, logJob]

/-- Witness for C9 at a concrete input: submission succeeded ("job-00042"),
the insert fails with "insert failed", the response is 500 with that error
text in the message, and the trace ends at the audit insert. -/
theorem C9_audit_failure_response_witness :
    handleRequest cfgEx oracleAuditFail reqEx "id-9" =
      some ({ statusCode := 500,
              body := .failure { id := "id-9",
                                 message := "Failed to log job with error: insert failed\n" } },
            [Effect.authorizationCall "https://vault.example/v1/vaults/vault-1/query"
              "SELECT 1" "Bearer tok.good",
             Effect.submitJob (startJobRunParams cfgEx "SELECT 1" "id-9"),
             Effect.auditInsert
               { id := "id-9", jobId := "job-00042", jobStatus := "INITIATED",
                 requestId := "abc123", query := "SELECT 1",
                 destination := "s3://bucket/key", crossBucketRegion := "us-east-1",
                 jti := "tid-1", clientIp := "10.0.0.9" }]) :=
  C9_audit_failure_response cfgEx oracleAuditFail reqEx "id-9" "tid-1" "abc123" "resultset"
    "job-00042" "insert failed" (by decide) (by decide) rfl (by decide) (by decide) rfl rfl rfl

/-- C2: the handler is not total. On a request whose Authorization header is
exactly "Bearer" (no credential part), the scheme validation passes, and
then ExtractJTI indexes element 1 of a one-element split without a bounds
check: the Go code panics and no JSON failure body is produced (the result
is `none`, not a response envelope carrying the request id). -/
theorem C2_panic_short_auth_header :
    validateAuthScheme "Bearer" = true ∧
    handleRequest cfgEx oracleOK { reqEx with authorizationHeader := "Bearer" } "id-2" =
      none := by
  exact ⟨by decide, rfl⟩

/-- C3: on a well-formed two-part header whose second part decodes to a claim
set without a `jti` claim, the extractor does not fail with a decode error:
the Go type assertion `claims["jti"].(string)` panics and the handler
produces no 403 response (the result is `none`). The third conjunct records
that the other half of the claim does hold: a non-decodable second part is
answered with 403 and the decode error text in the message. -/
theorem C3_panic_missing_jti :
    parseEx "tok.nojti" = Except.ok [("sub", ClaimValue.str "someone")] ∧
    handleRequest cfgEx oracleOK { reqEx with authorizationHeader := "Bearer tok.nojti" }
      "id-3" = none ∧
    handleRequest cfgEx oracleOK { reqEx with authorizationHeader := "Bearer bad" } "id-3" =
      some ({ statusCode := 403,
              body := .failure
                { id := "id-3",
                  message := "Failed to extract jti with error: token contains an invalid number of segments" } },
            []) := by
  exact ⟨rfl, rfl, rfl⟩

/-- C10: the submitted job carries exactly the query, the generated request
id, the configured secret reference and the configured region as entry point
arguments; the job submissions in the effect trace are unchanged by the
optional region field of the body; a body with no region field behaves like
a body carrying the configured region (the default); and on every run that
reaches the audit write, the stored record has the body region, defaulted to
the configured region, as its cross-bucket region. -/
theorem C10_region_handling :
    (∀ (cfg : Config) (startResult : Except String String) (q i : String),
      (triggerEMRJob cfg startResult q i).2 = [Effect.submitJob (startJobRunParams cfg q i)] ∧
      (startJobRunParams cfg q i).entryPointArguments = [q, i, cfg.secrets, cfg.region]) ∧
    (∀ (cfg : Config) (o : Oracle) (req : APIGatewayProxyRequest) (i : String)
        (r1 r2 : Option String),
      (handleRequest cfg o { req with bodyRegion := r1 } i).map (fun p => submitEffectsOf p.2) =
      (handleRequest cfg o { req with bodyRegion := r2 } i).map (fun p => submitEffectsOf p.2)) ∧
    (∀ (cfg : Config) (o : Oracle) (req : APIGatewayProxyRequest) (i : String),
      req.bodyRegion = none →
      handleRequest cfg o req i =
        handleRequest cfg o { req with bodyRegion := some cfg.region } i) ∧
    (∀ (cfg : Config) (o : Oracle) (req : APIGatewayProxyRequest) (i jti xr bd jobId : String),
      destinationMatches req.bodyDestination = true →
      validateAuthScheme req.authorizationHeader = true →
      extractJTI o.parseJWT req.authorizationHeader = some (.ok jti) →
      validateVaultId cfg.validVaultIds req.vaultID = true →
      req.bodyQuery ≠ "" →
      o.authCall = .response 200 xr bd →
      o.startJobRun = .ok jobId →
      ∃ resp : APIGatewayProxyResponse,
        handleRequest cfg o req i =
          some (resp,
                [Effect.authorizationCall
                  (cfg.vaultUrl ++ "/v1/vaults/" ++ req.vaultID ++ "/query")
                  req.bodyQuery req.authorizationHeader,
                 Effect.submitJob (startJobRunParams cfg req.bodyQuery i),
                 Effect.auditInsert
                   { id := i, jobId := jobId, jobStatus := "INITIATED", requestId := xr,
                     query := req.bodyQuery, destination := req.bodyDestination,
                     crossBucketRegion := req.bodyRegion.getD cfg.region, jti := jti,
                     clientIp := (goSplit req.xForwardedFor ',').headD "" }])) := by
  refine ⟨?_, ?_, ?_, ?_⟩
  · intro cfg startResult q i
    exact ⟨rfl, rfl⟩
  · intro cfg o req i r1 r2
    rcases req with ⟨q, d, rg, v, a, x⟩
    cases h1 : destinationMatches d with
    | false => simp [handleRequest, h1]
    | true =>
      cases h2 : validateAuthScheme a with
      | false => simp [handleRequest, h1, h2]
      | true =>
        rcases h3 : extractJTI o.parseJWT a with _ | e | jti
        · simp [handleRequest, h1, h2, h3]
        · simp [handleRequest, h1, h2, h3]
        · cases h4 : validateVaultId cfg.validVaultIds v with
          | false => simp [handleRequest, h1, h2, h3, h4]
          | true =>
            by_cases h5 : q.length = 0
            · simp [handleRequest, h1, h2, h3, h4, skyflowAuthorization, h5]
            · cases h6 : o.authCall with
              | transportError msg =>
                by_cases h7 : msg = "" <;>
                  simp [handleRequest, h1, h2, h3, h4, skyflowAuthorization, h5, h6, h7,
                        submitEffectsOf]
              | response st xr bd =>
                by_cases h7 : st = 200
                · subst h7
                  rcases h8 : o.startJobRun with e | jobId <;>
                    rcases h9 : o.dbExec with _ | de <;>
                    simp [handleRequest, h1, h2, h3, h4, skyflowAuthorization, h5, h6, h8,
                          h9, triggerEMRJob, logJob, submitEffectsOf]
                · simp [handleRequest, h1, h2, h3, h4, skyflowAuthorization, h5, h6, h7,
                        submitEffectsOf]
  · intro cfg o req i hr
    rcases req with ⟨q, d, rg, v, a, x⟩
    have hrg : rg = none := hr
    subst hrg
    rfl
  · intro cfg o req i jti xr bd jobId h1 h2 h3 h4 h5 h6 h7
    rcases h8 : o.dbExec with _ | e
    · refine ⟨{ statusCode := 200,
                body := .success { id := i, jobId := jobId, requestId := xr,
                                   jobStatus := "INITIATED" } }, ?_⟩
      simp [handleRequest, h1, h2, h3, h4, skyflowAuthorization, length_eq_zero_iff, h5, h6,
            h7, h8, triggerEMRJob, logJob]
    · refine ⟨{ statusCode := 500,
                body := .failure { id := i,
                                   message := "Failed to log job with error: " ++ e ++ "\n" } },
              ?_⟩
      simp [handleRequest, h1, h2, h3, h4, skyflowAuthorization, length_eq_zero_iff, h5, h6,
            h7, h8, triggerEMRJob, logJob]

/-- Witness for C10 at concrete inputs: the omitted body region behaves like
the configured region "us-east-1", and the success run stores "us-east-1" as
the cross-bucket region while submitting with arguments
["SELECT 1", "id-10", "secret-ref", "us-east-1"]. -/
theorem C10_region_handling_witness :
    (handleRequest cfgEx oracleOK reqEx "id-10" =
      handleRequest cfgEx oracleOK { reqEx with bodyRegion := some cfgEx.region } "id-10") ∧
    (∃ resp : APIGatewayProxyResponse,
      handleRequest cfgEx oracleOK reqEx "id-10" =
        some (resp,
              [Effect.authorizationCall "https://vault.example/v1/vaults/vault-1/query"
                "SELECT 1" "Bearer tok.good",
               Effect.submitJob (startJobRunParams cfgEx "SELECT 1" "id-10"),
               Effect.auditInsert
                 { id := "id-10", jobId := "job-00042", jobStatus := "INITIATED",
                   requestId := "abc123", query := "SELECT 1",
                   destination := "s3://bucket/key", crossBucketRegion := "us-east-1",
                   jti := "tid-1", clientIp := "10.0.0.9" }])) :=
  ⟨C10_region_handling.2.2.1 cfgEx oracleOK reqEx "id-10" rfl,
   C10_region_handling.2.2.2 cfgEx oracleOK reqEx "id-10" "tid-1" "abc123" "resultset"
     "job-00042" (by decide) (by decide) rfl (by decide) (by decide) rfl rfl⟩

end ExportQueryAPI
